import Mathlib

/-!
Verification of the flightradar24 incremental collection engine
(`src/main.py`) against its natural-language specification.

The Python program is shallowly embedded: network fetches are abstracted
into page oracles (each collector consumes the pages the provider would
have returned), Python dict records become a `FlightRecord` structure,
Python exceptions become `Option`/`Except` results, and `time.sleep`
calls are recorded in an explicit trace.  `datetime.fromtimestamp` is
modelled at UTC (the timezone dependence of the original is outside the
embedding); timestamps are natural numbers of seconds since the epoch.
-/

/-- Python truthiness of an optional integer: `None` and `0` are falsy. -/
def truthyNat (x : Option Nat) : Bool :=
  match x with
  | none => false
  | some n => n != 0

/-- Embeds `if earliest_date and date < earliest_date` from `main.py` lines 150 and 231:
`None` is falsy, a datetime is always truthy, and `<` compares the instants. -/
def boundaryHit (earliest : Option Nat) (date : Nat) : Bool :=
  match earliest with
  | none => false
  | some e => date < e

/-- Two-digit zero padding, as used by `strftime` fields. -/
def pad2 (n : Nat) : String :=
  if n < 10 then "0" ++ toString n else toString n

/-- Civil date (year, month, day) from days since 1970-01-01, Gregorian
calendar (Howard Hinnant's algorithm, which is written for truncating
integer division, matching `Int.div`'s behaviour). -/
def civilFromDays (z0 : Int) : Int × Nat × Nat :=
  let z := z0 + 719468
  let era : Int := (if 0 ≤ z then z else z - 146096) / 146097
  let doe : Nat := (z - era * 146097).toNat
  let yoe : Nat := (doe - doe / 1460 + doe / 36524 - doe / 146096) / 365
  let y : Int := (yoe : Int) + era * 400
  let doy : Nat := doe - (365 * yoe + yoe / 4 - yoe / 100)
  let mp : Nat := (5 * doy + 2) / 153
  let d : Nat := doy - (153 * mp + 2) / 5 + 1
  let m : Nat := if mp < 10 then mp + 3 else mp - 9
  (if m ≤ 2 then y + 1 else y, m, d)

/-- Embeds `date.strftime('%d.%m.%Y')` for a timestamp interpreted at UTC. -/
def fmtDate (ts : Nat) : String :=
  match civilFromDays ((ts : Int) / 86400) with
  | (y, m, d) => pad2 d ++ "." ++ pad2 m ++ "." ++ toString y

/-- Embeds `time.strftime('%H:%M', time.gmtime(duration))`. -/
def fmtHM (duration : Nat) : String :=
  pad2 (duration / 3600 % 24) ++ ":" ++ pad2 (duration / 60 % 60)

/-- Embeds `time.strftime('%H:%M', time.gmtime(duration)) if duration else None`:
absent when the duration is null or zero (Python truthiness). -/
def fmtDur (duration : Option Nat) : Option String :=
  if truthyNat duration then some (fmtHM (duration.getD 0)) else none

/-- ASCII uppercasing of one character, the effect of Python's `str.upper`
on the ASCII registration strings this program handles. -/
def charUpper (c : Char) : Char :=
  if 97 ≤ c.toNat ∧ c.toNat ≤ 122 then Char.ofNat (c.toNat - 32) else c

/-- Python `str.upper()` restricted to ASCII content. -/
def pyUpper (s : String) : String :=
  ⟨s.data.map charUpper⟩

/-- Character-list version of Python `str.startswith`. -/
def beginsList : List Char → List Char → Bool
  | [], _ => true
  | _ :: _, [] => false
  | p :: ps, c :: cs => p == c && beginsList ps cs

/-- Python `s.startswith(pre)`. -/
def strBegins (pre s : String) : Bool :=
  beginsList pre.data s.data

/-- Canonical flight record, the Python dict built at `main.py` lines
169-179 (aircraft collector) and 237-247 (airport collector).  Field
names follow the dict keys NUMBER, AIRLINE, MODEL, DATE, FROM, TO,
FLIGHT, FLIGHT TIME, STATUS. -/
structure FlightRecord where
  number : String
  airline : Option String
  model : String
  date : String
  fromDesc : Option String
  toDesc : Option String
  flight : String
  flightTime : Option String
  status : String
deriving DecidableEq

/-- The delta merge at `main.py` lines 371-373:
`for flight in scrapped_data: if flight not in data_in_xlsx: data_to_append.append(flight)`. -/
def mergeDelta (scrappedData : List FlightRecord) (dataInXlsx : List FlightRecord) :
    List FlightRecord :=
  scrappedData.foldl
    (fun dataToAppend flight =>
      if flight ∈ dataInXlsx then dataToAppend else dataToAppend ++ [flight])
    []

/-- Outcome of one HTTP attempt, as observed by `Scraper._get_request`
(`main.py` lines 76-91): only `response.ok` and the status code matter. -/
structure Response where
  ok : Bool
  statusCode : Nat
deriving DecidableEq

/-- The retry loop body of `Scraper._get_request`.  `responses` is the
oracle giving the response of attempt `n` (attempts are numbered from 1,
as `range(1, retries+1)` does); `randInt` is the oracle for
`random.randint(*sleep_range)` on attempt `n`.  The result pairs the
trace of `time.sleep` durations, in order, with `some response` on
success or `none` for `raise Exception(f'Failed {retries} retries!')`. -/
def getRequestGo (responses : Nat → Response) (randInt : Nat → Nat) :
    Nat → Nat → List Nat × Option Response
  | _, 0 => ([], none)
  | attempt, remaining + 1 =>
    if (responses attempt).ok then ([], some (responses attempt))
    else
      (randInt attempt :: (getRequestGo responses randInt (attempt + 1) remaining).1,
       (getRequestGo responses randInt (attempt + 1) remaining).2)

/-- Embeds `Scraper._get_request(url, retries, sleep_range)`:
`for retry in range(1, retries+1)` starting at attempt 1. -/
def get_request (responses : Nat → Response) (randInt : Nat → Nat)
    (retries : Nat) : List Nat × Option Response :=
  getRequestGo responses randInt 1 retries

/-- Constant `MAX_RETRIES = 5` from `main.py` line 23. -/
def MAX_RETRIES : Nat := 5

/-- The `data['aircraftInfo']` fields read at `main.py` lines 171-172. -/
structure AircraftInfo where
  airlineName : String
  modelText : String
deriving DecidableEq

/-- One element of `data['data']` in the aircraft-history payload, with
exactly the fields `get_aircraft_history` reads.  Optional fields are
the ones the code guards with a truthiness or `if` check. -/
structure AircraftEntry where
  statusText : String
  departureTs : Option Nat
  updatedTs : Nat
  duration : Option Nat
  originCityIata : Option (String × String)
  destCityIata : Option (String × String)
  flightNumber : String
deriving DecidableEq

/-- One page of the aircraft-history payload: `data['aircraftInfo']`,
`data['data']` (which the code checks for `None` at line 135), and
`data['page']['more']`. -/
structure AircraftPage where
  aircraftInfo : AircraftInfo
  data : Option (List AircraftEntry)
  more : Bool

/-- The `'City (IATA)'` descriptor built at lines 158 and 165. -/
def cityIataDesc (cityIata : Option (String × String)) : Option String :=
  match cityIata with
  | some (city, iata) => some (city ++ " (" ++ iata ++ ")")
  | none => none

/-- The record's date, lines 143-148: the scheduled departure timestamp
when truthy, otherwise the last-updated timestamp. -/
def aircraftEntryDate (e : AircraftEntry) : Nat :=
  if truthyNat e.departureTs then e.departureTs.getD 0 else e.updatedTs

/-- The `flight` dict built at `main.py` lines 169-179 for one aircraft
entry. -/
def mkAircraftRecord (aircraftNumber : String) (info : AircraftInfo)
    (e : AircraftEntry) : FlightRecord :=
  { number := pyUpper aircraftNumber
    airline := some info.airlineName
    model := info.modelText
    date := fmtDate (aircraftEntryDate e)
    fromDesc := cityIataDesc e.originCityIata
    toDesc := cityIataDesc e.destCityIata
    flight := e.flightNumber
    flightTime := fmtDur e.duration
    status := e.statusText }

/-- The `for d in data.get('data', [])` body of `get_aircraft_history`
(lines 138-183).  `.inl history` models the early `return history` at
line 151 when the date boundary is hit; `.inr history` means the page's
entries were exhausted and the loop continues. -/
def processAircraftEntries (aircraftNumber : String) (info : AircraftInfo)
    (earliest : Option Nat) :
    List AircraftEntry → List FlightRecord →
      List FlightRecord ⊕ List FlightRecord
  | [], history => .inr history
  | e :: rest, history =>
    if e.statusText = "Scheduled" then
      processAircraftEntries aircraftNumber info earliest rest history
    else if boundaryHit earliest (aircraftEntryDate e) then
      .inl history
    else
      if mkAircraftRecord aircraftNumber info e ∈ history then
        processAircraftEntries aircraftNumber info earliest rest history
      else
        processAircraftEntries aircraftNumber info earliest rest
          (history ++ [mkAircraftRecord aircraftNumber info e])

/-- The `while True` pagination loop of `get_aircraft_history` (lines
125-193), with the successive provider payloads given as a page list
(the continuation-token bookkeeping of lines 186-190 only selects the
next page and is absorbed into that oracle).  Line 135-136: a null
`data['data']` returns `[]`, discarding `history`.  Line 185: when
`data['page']['more']` is false, `history` is returned. -/
def collectAircraftPages (aircraftNumber : String) (earliest : Option Nat) :
    List AircraftPage → List FlightRecord → List FlightRecord
  | [], history => history
  | page :: rest, history =>
    match page.data with
    | none => []
    | some entries =>
      match processAircraftEntries aircraftNumber page.aircraftInfo earliest entries history with
      | .inl h => h
      | .inr h =>
        if page.more then collectAircraftPages aircraftNumber earliest rest h else h

/-- Embeds `Scraper.get_aircraft_history(aircraft_number, earliest_date)`,
starting from `history = []` and `page = 1`. -/
def get_aircraft_history (aircraftNumber : String) (earliest : Option Nat)
    (pages : List AircraftPage) : List FlightRecord :=
  collectAircraftPages aircraftNumber earliest pages []

/-- The `plugin-setting[schedule][mode]` values: the two directional fetches of
`get_airport_history` (line 196-197). -/
inductive Direction where
  | arrivals
  | departures
deriving DecidableEq

/-- The `r_json['airport']['pluginData']['details']` fields read at
`main.py` lines 257-259. -/
structure AirportDetails where
  name : String
  iata : String
  icao : String
deriving DecidableEq

/-- One `d = d['flight']` element of the airport schedule payload, with
exactly the fields `_get_airport_history` reads.  `airlineName` is
`None` exactly when `d['airline']` is null (line 239). -/
structure AirportEntry where
  duration : Option Nat
  departureTs : Nat
  statusText : String
  originCityIata : Option (String × String)
  destCityIata : Option (String × String)
  registration : String
  airlineName : Option String
  modelText : String
  flightNumber : String
deriving DecidableEq

/-- One page of `data = r_json['airport']['pluginData']['schedule'][direction]`:
its entry list and `data['page']['current']` / `data['page']['total']`,
plus the airport details that accompany the same response. -/
structure AirportPage where
  details : AirportDetails
  data : List AirportEntry
  current : Nat
  total : Nat

/-- Embeds `Scraper._parse_origin_and_destination` (`main.py` lines 256-280). -/
def parse_origin_and_destination (e : AirportEntry) (details : AirportDetails)
    (direction : Direction) : Option String × Option String :=
  let own := details.name ++ " (" ++ details.iata ++ "/" ++ details.icao ++ ")"
  match direction with
  | .arrivals => (cityIataDesc e.originCityIata, some own)
  | .departures => (some own, cityIataDesc e.destCityIata)

/-- The `flight` dict built at `main.py` lines 237-247 for one airport
entry: the registration is stored verbatim, not uppercased. -/
def mkAirportRecord (e : AirportEntry) (details : AirportDetails)
    (direction : Direction) : FlightRecord :=
  let od := parse_origin_and_destination e details direction
  { number := e.registration
    airline := e.airlineName
    model := e.modelText
    date := fmtDate e.departureTs
    fromDesc := od.1
    toDesc := od.2
    flight := e.flightNumber
    flightTime := fmtDur e.duration
    status := e.statusText }

/-- The `for d in data['data']` body of `_get_airport_history` (lines
223-250).  Line 228-229 skips `'Scheduled'` and `'Estimated…'` statuses;
line 231-232 is the early `return history` (modelled as `.inl`);
line 249-250 appends only unseen records. -/
def processAirportEntries (details : AirportDetails) (direction : Direction)
    (earliest : Option Nat) :
    List AirportEntry → List FlightRecord →
      List FlightRecord ⊕ List FlightRecord
  | [], history => .inr history
  | e :: rest, history =>
    if e.statusText = "Scheduled" || strBegins "Estimated" e.statusText then
      processAirportEntries details direction earliest rest history
    else if boundaryHit earliest e.departureTs then
      .inl history
    else
      if mkAirportRecord e details direction ∈ history then
        processAirportEntries details direction earliest rest history
      else
        processAirportEntries details direction earliest rest
          (history ++ [mkAirportRecord e details direction])

/-- The `page -= 1` update at `main.py` line 254: the next page number requested
after a non-final page. -/
def airportNextPage (page : Int) : Int :=
  page - 1

/-- The `while True` loop of `_get_airport_history` (lines 203-254).
`pages` maps a requested page number to the provider payload for it
(page numbers can leave `Nat` because of `airportNextPage`); `fuel`
bounds the iterations so the function is total, with `none` meaning the
loop was still running when the fuel ran out.  Line 252-253: the loop
returns `history` exactly when `current == total`. -/
def airportLoop (pages : Int → AirportPage) (direction : Direction)
    (earliest : Option Nat) :
    Nat → Int → List FlightRecord → Option (List FlightRecord)
  | 0, _, _ => none
  | fuel + 1, page, history =>
    match processAirportEntries (pages page).details direction earliest
        (pages page).data history with
    | .inl h => some h
    | .inr h =>
      if (pages page).current = (pages page).total then some h
      else airportLoop pages direction earliest fuel (airportNextPage page) h

/-- Embeds `Scraper._get_airport_history(airport_code, direction, earliest_date)`:
the loop starts at `page = 1` with `history = []`. -/
def get_airport_history_dir (pages : Int → AirportPage) (direction : Direction)
    (earliest : Option Nat) (fuel : Nat) : Option (List FlightRecord) :=
  airportLoop pages direction earliest fuel 1 []

/-- Embeds `Scraper.get_airport_history` (lines 195-197): arrivals then
departures, concatenated. -/
def get_airport_history (arrivalPages departurePages : Int → AirportPage)
    (earliest : Option Nat) (fuel : Nat) : Option (List FlightRecord) :=
  match get_airport_history_dir arrivalPages .arrivals earliest fuel,
        get_airport_history_dir departurePages .departures earliest fuel with
  | some a, some d => some (a ++ d)
  | _, _ => none

/-- The error raised by `_get_request` after exhausting its retries
(`main.py` line 91), as seen by `main`. -/
inductive FetchError where
  | exhausted (retries : Nat)
deriving DecidableEq

/-- The per-target accumulation loops of `main` (lines 361-369):
`scrapped_data += target_flights` for each target in order.  Each
target's collection either yields records or raises; `main` has no
`try/except`, so an exception aborts the loop (and the run) at once. -/
def accumulateTargets :
    List (Except FetchError (List FlightRecord)) → List FlightRecord →
      Except FetchError (List FlightRecord)
  | [], scrappedData => .ok scrappedData
  | result :: rest, scrappedData =>
    match result with
    | .error e => .error e
    | .ok flights => accumulateTargets rest (scrappedData ++ flights)

/-- The collection-and-merge phase of `main` (lines 358-373): airports
first, then aircraft, then the delta against the existing spreadsheet
rows.  An uncaught `FetchError` from any target propagates out of
`main`, so nothing is merged or written. -/
def mainRun (airportResults aircraftResults : List (Except FetchError (List FlightRecord)))
    (dataInXlsx : List FlightRecord) : Except FetchError (List FlightRecord) :=
  match accumulateTargets airportResults [] with
  | .error e => .error e
  | .ok s1 =>
    match accumulateTargets aircraftResults s1 with
    | .error e => .error e
    | .ok scrappedData => .ok (mergeDelta scrappedData dataInXlsx)

/-- Helper predicate transformer: a property of the accumulated history
that holds whichever way the per-entry loop exits (`.inl` = early
return, `.inr` = page finished). -/
def sumBoth (P : List FlightRecord → Prop) :
    List FlightRecord ⊕ List FlightRecord → Prop
  | .inl h => P h
  | .inr h => P h

/-- Sample `aircraftInfo` payload. -/
def cInfo : AircraftInfo := { airlineName := "TestAir", modelText := "A320" }

/-- Sample aircraft entry: landed on 2023-01-02 (timestamp 1672617600). -/
def cLandedEntry : AircraftEntry :=
  { statusText := "Landed", departureTs := some 1672617600, updatedTs := 0,
    duration := some 7200, originCityIata := some ("Paris", "CDG"),
    destCityIata := some ("Rome", "FCO"), flightNumber := "XY123" }

/-- Sample aircraft entry dated 1970-01-11 (timestamp 864000), far before
any cutoff used in the examples. -/
def cOldEntry : AircraftEntry :=
  { statusText := "Landed", departureTs := some 864000, updatedTs := 0,
    duration := none, originCityIata := none,
    destCityIata := none, flightNumber := "XY001" }

/-- A single final page holding `cLandedEntry`. -/
def cLandedPage : AircraftPage :=
  { aircraftInfo := cInfo, data := some [cLandedEntry], more := false }

/-- A page holding `cOldEntry` with `more` reported. -/
def cOldPage : AircraftPage :=
  { aircraftInfo := cInfo, data := some [cOldEntry], more := true }

/-- A page whose `data['data']` is null. -/
def cNullPage : AircraftPage :=
  { aircraftInfo := cInfo, data := none, more := true }

/-- The record the aircraft collector builds from `cLandedEntry`. -/
def cRecord : FlightRecord := mkAircraftRecord "n12345" cInfo cLandedEntry

/-- Sample airport details payload. -/
def cDetails : AirportDetails :=
  { name := "Ben Gurion", iata := "TLV", icao := "LLBG" }

/-- Sample airport entry: landed on 2023-01-02. -/
def cAptLandedEntry : AirportEntry :=
  { duration := some 7200, departureTs := 1672617600, statusText := "Landed",
    originCityIata := some ("Paris", "CDG"), destCityIata := some ("Rome", "FCO"),
    registration := "N555XY", airlineName := some "TestAir", modelText := "A320",
    flightNumber := "XY555" }

/-- Sample airport entry dated 1970-01-11. -/
def cAptOldEntry : AirportEntry :=
  { duration := none, departureTs := 864000, statusText := "Landed",
    originCityIata := none, destCityIata := none,
    registration := "N556XY", airlineName := none, modelText := "B738",
    flightNumber := "XY556" }

/-- Sample airport entry whose provider-reported registration is
lower-case. -/
def cAptLowerEntry : AirportEntry :=
  { duration := none, departureTs := 1672617600, statusText := "Landed",
    originCityIata := some ("Paris", "CDG"), destCityIata := none,
    registration := "n123ab", airlineName := some "TestAir", modelText := "A320",
    flightNumber := "XY007" }

/-- A one-page airport response (`current == total`), every page the same. -/
def cAptOnePages : Int → AirportPage :=
  fun _ => { details := cDetails, data := [cAptLandedEntry], current := 1, total := 1 }

/-- A one-page airport response holding the lower-case-registration entry. -/
def cAptLowerPages : Int → AirportPage :=
  fun _ => { details := cDetails, data := [cAptLowerEntry], current := 1, total := 1 }

/-- An airport oracle whose page 1 reports `current=1, total=2` with no
entries, while every other page number holds `cAptLandedEntry` and is
final; it makes visible which page number the loop requests next. -/
def cDecPages : Int → AirportPage :=
  fun p =>
    if p = 1 then { details := cDetails, data := [], current := 1, total := 2 }
    else { details := cDetails, data := [cAptLandedEntry], current := 7, total := 7 }

/-- An airport oracle whose page 1 contains an entry preceding the 2023
cutoff while reporting more pages (`current=1, total=2`). -/
def cAptOldPages : Int → AirportPage :=
  fun _ => { details := cDetails, data := [cAptOldEntry], current := 1, total := 2 }

/-- A response oracle: attempts 1 and 2 fail with 503, attempt 3
succeeds. -/
def cResponses : Nat → Response :=
  fun n => if n = 3 then { ok := true, statusCode := 200 }
           else { ok := false, statusCode := 503 }

/-- A response oracle that always fails with 503. -/
def cFailResponses : Nat → Response :=
  fun _ => { ok := false, statusCode := 503 }

/-- A `randint` oracle that always draws 45. -/
def cRand : Nat → Nat := fun _ => 45

/-- Constant `RETRY_SLEEP_RANGE = (30, 60)` from `main.py` line 24. -/
def RETRY_SLEEP_RANGE : Nat × Nat := (30, 60)

lemma charUpper_toNat (c : Char) :
    (charUpper c).toNat
      = if 97 ≤ c.toNat ∧ c.toNat ≤ 122 then c.toNat - 32 else c.toNat := by
  unfold charUpper
  split
  · next h =>
    simp only [Char.toNat] at h ⊢
    have hv : (c.val.toNat - 32).isValidChar := Or.inl (by omega)
    unfold Char.ofNat
    rw [dif_pos hv]
    rfl
  · rfl

lemma charUpper_idem (c : Char) : charUpper (charUpper c) = charUpper c := by
  by_cases h : 97 ≤ (charUpper c).toNat ∧ (charUpper c).toNat ≤ 122
  · exfalso
    rw [charUpper_toNat c] at h
    by_cases hc : 97 ≤ c.toNat ∧ c.toNat ≤ 122
    · rw [if_pos hc] at h; omega
    · rw [if_neg hc] at h; exact hc h
  · show (if 97 ≤ (charUpper c).toNat ∧ (charUpper c).toNat ≤ 122
        then Char.ofNat ((charUpper c).toNat - 32) else charUpper c) = charUpper c
    rw [if_neg h]

lemma pyUpper_idem (s : String) : pyUpper (pyUpper s) = pyUpper s := by
  show (⟨(s.data.map charUpper).map charUpper⟩ : String) = ⟨s.data.map charUpper⟩
  rw [List.map_map]
  congr 1
  exact List.map_congr_left fun c _ => charUpper_idem c

lemma foldlAppend_eq_filter (existing : List FlightRecord) :
    ∀ (l acc : List FlightRecord),
      l.foldl (fun dataToAppend flight =>
          if flight ∈ existing then dataToAppend else dataToAppend ++ [flight]) acc
        = acc ++ l.filter (fun r => decide (r ∉ existing))
  | [], acc => by simp
  | x :: l, acc => by
    by_cases hx : x ∈ existing
    · rw [List.foldl_cons, if_pos hx, foldlAppend_eq_filter existing l acc]
      simp [List.filter_cons, hx]
    · rw [List.foldl_cons, if_neg hx, foldlAppend_eq_filter existing l (acc ++ [x])]
      simp [List.filter_cons, hx]

lemma mergeDelta_eq_filter (fresh existing : List FlightRecord) :
    mergeDelta fresh existing = fresh.filter (fun r => decide (r ∉ existing)) := by
  unfold mergeDelta
  simpa using foldlAppend_eq_filter existing fresh []

lemma processAircraftEntries_inv (P : FlightRecord → Prop) (number : String)
    (info : AircraftInfo) (earliest : Option Nat)
    (hP : ∀ e : AircraftEntry, e.statusText ≠ "Scheduled" →
      P (mkAircraftRecord number info e)) :
    ∀ (entries : List AircraftEntry) (history : List FlightRecord),
      (∀ r ∈ history, P r) →
      sumBoth (fun h => ∀ r ∈ h, P r)
        (processAircraftEntries number info earliest entries history) := by
  intro entries
  induction entries with
  | nil => intro history hh; exact hh
  | cons e rest ih =>
    intro history hh
    unfold processAircraftEntries
    split
    · exact ih history hh
    · next hs =>
      split
      · exact hh
      · split
        · exact ih history hh
        · next hmem =>
          refine ih _ fun r hr => ?_
          rcases List.mem_append.mp hr with h1 | h2
          · exact hh r h1
          · rw [List.mem_singleton.mp h2]
            exact hP e hs

lemma collectAircraftPages_inv (P : FlightRecord → Prop) (number : String)
    (earliest : Option Nat)
    (hP : ∀ (info : AircraftInfo) (e : AircraftEntry), e.statusText ≠ "Scheduled" →
      P (mkAircraftRecord number info e)) :
    ∀ (pages : List AircraftPage) (history : List FlightRecord),
      (∀ r ∈ history, P r) →
      ∀ r ∈ collectAircraftPages number earliest pages history, P r := by
  intro pages
  induction pages with
  | nil => intro history hh; exact hh
  | cons page rest ih =>
    intro history hh
    simp only [collectAircraftPages]
    rcases hd : page.data with _ | entries
    · simp [hd]
    · simp only [hd]
      have hi := processAircraftEntries_inv P number page.aircraftInfo earliest
        (hP page.aircraftInfo) entries history hh
      rcases hp : processAircraftEntries number page.aircraftInfo earliest entries history
        with h | h
      · rw [hp] at hi; simp only [hp]; exact hi
      · rw [hp] at hi
        simp only [hp]
        split
        · exact ih h hi
        · exact hi

lemma processAircraftEntries_nodup (number : String) (info : AircraftInfo)
    (earliest : Option Nat) :
    ∀ (entries : List AircraftEntry) (history : List FlightRecord),
      history.Nodup →
      sumBoth List.Nodup
        (processAircraftEntries number info earliest entries history) := by
  intro entries
  induction entries with
  | nil => intro history hh; exact hh
  | cons e rest ih =>
    intro history hh
    unfold processAircraftEntries
    split
    · exact ih history hh
    · split
      · exact hh
      · split
        · exact ih history hh
        · next hmem =>
          refine ih _ ?_
          simp [List.nodup_append, hh, hmem]

lemma collectAircraftPages_nodup (number : String) (earliest : Option Nat) :
    ∀ (pages : List AircraftPage) (history : List FlightRecord),
      history.Nodup → (collectAircraftPages number earliest pages history).Nodup := by
  intro pages
  induction pages with
  | nil => intro history hh; exact hh
  | cons page rest ih =>
    intro history hh
    simp only [collectAircraftPages]
    rcases hd : page.data with _ | entries
    · simp [hd]
    · simp only [hd]
      have hi := processAircraftEntries_nodup number page.aircraftInfo earliest
        entries history hh
      rcases hp : processAircraftEntries number page.aircraftInfo earliest entries history
        with h | h
      · rw [hp] at hi; simp only [hp]; exact hi
      · rw [hp] at hi
        simp only [hp]
        split
        · exact ih h hi
        · exact hi

lemma processAirportEntries_inv (P : FlightRecord → Prop) (details : AirportDetails)
    (direction : Direction) (earliest : Option Nat)
    (hP : ∀ e : AirportEntry,
      (e.statusText = "Scheduled" || strBegins "Estimated" e.statusText) = false →
      P (mkAirportRecord e details direction)) :
    ∀ (entries : List AirportEntry) (history : List FlightRecord),
      (∀ r ∈ history, P r) →
      sumBoth (fun h => ∀ r ∈ h, P r)
        (processAirportEntries details direction earliest entries history) := by
  intro entries
  induction entries with
  | nil => intro history hh; exact hh
  | cons e rest ih =>
    intro history hh
    unfold processAirportEntries
    split
    · exact ih history hh
    · next hs =>
      split
      · exact hh
      · split
        · exact ih history hh
        · refine ih _ fun r hr => ?_
          rcases List.mem_append.mp hr with h1 | h2
          · exact hh r h1
          · rw [List.mem_singleton.mp h2]
            exact hP e (by simpa using hs)

lemma airportLoop_inv (P : FlightRecord → Prop) (direction : Direction)
    (earliest : Option Nat) (pages : Int → AirportPage)
    (hP : ∀ (pg : AirportPage) (e : AirportEntry),
      (e.statusText = "Scheduled" || strBegins "Estimated" e.statusText) = false →
      P (mkAirportRecord e pg.details direction)) :
    ∀ (fuel : Nat) (page : Int) (history h : List FlightRecord),
      (∀ r ∈ history, P r) →
      airportLoop pages direction earliest fuel page history = some h →
      ∀ r ∈ h, P r := by
  intro fuel
  induction fuel with
  | zero => intro page history h hh hres; cases hres
  | succ fuel ih =>
    intro page history h hh hres
    unfold airportLoop at hres
    have hi := processAirportEntries_inv P (pages page).details direction earliest
      (hP (pages page)) (pages page).data history hh
    rcases hp : processAirportEntries (pages page).details direction earliest
        (pages page).data history with h' | h'
    · rw [hp] at hi
      simp only [hp] at hres
      cases hres
      exact hi
    · rw [hp] at hi
      simp only [hp] at hres
      split at hres
      · cases hres; exact hi
      · exact ih _ _ _ hi hres

lemma getRequestGo_first_success (responses : Nat → Response) (randInt : Nat → Nat) :
    ∀ (d attempt remaining : Nat), d < remaining →
      (∀ j, attempt ≤ j → j < attempt + d → (responses j).ok = false) →
      (responses (attempt + d)).ok = true →
      getRequestGo responses randInt attempt remaining
        = ((List.range d).map (fun i => randInt (attempt + i)),
           some (responses (attempt + d))) := by
  intro d
  induction d with
  | zero =>
    intro attempt remaining hlt _ hok
    obtain ⟨r, rfl⟩ : ∃ r, remaining = r + 1 := ⟨remaining - 1, by omega⟩
    rw [Nat.add_zero] at hok
    simp [getRequestGo, hok]
  | succ d ih =>
    intro attempt remaining hlt hfail hok
    obtain ⟨r, rfl⟩ : ∃ r, remaining = r + 1 := ⟨remaining - 1, by omega⟩
    have hf : (responses attempt).ok = false := hfail attempt (Nat.le_refl _) (by omega)
    have hok1 : (responses (attempt + 1 + d)).ok = true := by
      rw [show attempt + 1 + d = attempt + (d + 1) by omega]; exact hok
    simp only [getRequestGo, hf, Bool.false_eq_true, if_false]
    rw [ih (attempt + 1) r (by omega)
        (fun j h1 h2 => hfail j (by omega) (by omega)) hok1]
    rw [show attempt + 1 + d = attempt + (d + 1) from by omega]
    rw [List.range_succ_eq_map, List.map_cons, List.map_map, Nat.add_zero]
    refine Prod.ext ?_ rfl
    show randInt attempt :: _ = randInt attempt :: _
    congr 1
    apply List.map_congr_left
    intro i _
    simp only [Function.comp_apply]
    congr 1
    omega

lemma getRequestGo_all_fail (responses : Nat → Response) (randInt : Nat → Nat) :
    ∀ (remaining attempt : Nat),
      (∀ j, attempt ≤ j → j < attempt + remaining → (responses j).ok = false) →
      getRequestGo responses randInt attempt remaining
        = ((List.range remaining).map (fun i => randInt (attempt + i)), none) := by
  intro remaining
  induction remaining with
  | zero => intro attempt _; simp [getRequestGo]
  | succ r ih =>
    intro attempt hfail
    have hf : (responses attempt).ok = false := hfail attempt (Nat.le_refl _) (by omega)
    simp only [getRequestGo, hf, Bool.false_eq_true, if_false]
    rw [ih (attempt + 1) (fun j h1 h2 => hfail j (by omega) (by omega))]
    rw [List.range_succ_eq_map, List.map_cons, List.map_map, Nat.add_zero]
    refine Prod.ext ?_ rfl
    show randInt attempt :: _ = randInt attempt :: _
    congr 1
    apply List.map_congr_left
    intro i _
    simp only [Function.comp_apply]
    congr 1
    omega

lemma getRequestGo_sleep_mem (responses : Nat → Response) (randInt : Nat → Nat) :
    ∀ (remaining attempt : Nat) (s : Nat),
      s ∈ (getRequestGo responses randInt attempt remaining).1 →
      ∃ j, s = randInt j := by
  intro remaining
  induction remaining with
  | zero => intro attempt s hs; simp [getRequestGo] at hs
  | succ r ih =>
    intro attempt s hs
    by_cases hf : (responses attempt).ok
    · simp [getRequestGo, hf] at hs
    · simp only [getRequestGo, hf, Bool.false_eq_true, if_false, List.mem_cons] at hs
      rcases hs with rfl | hs
      · exact ⟨attempt, rfl⟩
      · exact ih (attempt + 1) s hs

/-- Claim C2: the Delta Merger outputs exactly the subsequence of
`freshRecords` whose elements are not members of `existingRecords` under
full-record value equality, in the original relative order (a sublist of
the input), and performs no deduplication within `freshRecords` itself:
the multiplicity of any record outside `existingRecords` is preserved. -/
theorem mergeDelta_filter_spec (fresh existing : List FlightRecord) :
    mergeDelta fresh existing = fresh.filter (fun r => decide (r ∉ existing))
    ∧ (mergeDelta fresh existing).Sublist fresh
    ∧ ∀ r : FlightRecord,
        (mergeDelta fresh existing).count r
          = if r ∈ existing then 0 else fresh.count r := by
  refine ⟨mergeDelta_eq_filter fresh existing, ?_, ?_⟩
  · rw [mergeDelta_eq_filter]
    exact List.filter_sublist fresh
  · intro r
    rw [mergeDelta_eq_filter]
    by_cases hr : r ∈ existing
    · rw [if_pos hr, List.count_eq_zero]
      intro hmem
      rcases List.mem_filter.mp hmem with ⟨_, hp⟩
      simp only [decide_eq_true_eq] at hp
      exact hp hr
    · rw [if_neg hr]
      exact List.count_filter (by simp [hr])

/-- Claim C7: the Delta Merger is idempotent: it is a pure function of
its inputs, and merging the fresh records against the existing records
extended by the previous merge output yields the empty sequence. -/
theorem mergeDelta_idempotent (fresh existing : List FlightRecord) :
    mergeDelta fresh existing = mergeDelta fresh existing
    ∧ mergeDelta fresh (existing ++ mergeDelta fresh existing) = [] := by
  refine ⟨rfl, ?_⟩
  rw [mergeDelta_eq_filter, List.filter_eq_nil_iff]
  intro a ha
  simp only [decide_eq_true_eq, Decidable.not_not, List.mem_append]
  by_cases h : a ∈ existing
  · exact Or.inl h
  · refine Or.inr ?_
    rw [mergeDelta_eq_filter]
    exact List.mem_filter.mpr ⟨ha, by simp [h]⟩

/-- Claim C1 (refuted by the code): `main` has no handler at the target
boundary, so a fetch-exhaustion error from one target propagates out of
the run loop: every later target is skipped and no delta is produced,
instead of the failing target merely contributing zero records.  The
second conjunct evaluates the run at a concrete failing input: a failing
first aircraft target suppresses the healthy second target's record. -/
theorem mainRun_fetch_exhausted_aborts_run :
    (∀ (e : FetchError) (rest : List (Except FetchError (List FlightRecord)))
        (existing : List FlightRecord),
      mainRun [] (Except.error e :: rest) existing = Except.error e)
    ∧ mainRun [] [Except.error (FetchError.exhausted MAX_RETRIES), Except.ok [cRecord]] []
        = Except.error (FetchError.exhausted MAX_RETRIES) := by
  exact ⟨fun e rest existing => rfl, rfl⟩

/-- Claim C5 (refuted by the code): after a non-final airport page the
loop requests page `page - 1`, not `page + 1` (`main.py` line 254): from
page 1 it moves to page 0.  The last conjunct runs the embedded loop on
an oracle whose page 1 is non-final and shows the next page served is
the one at index 0. -/
theorem airport_pagination_decrements :
    airportNextPage 1 = 0
    ∧ airportNextPage 1 ≠ 1 + 1
    ∧ get_airport_history_dir cDecPages Direction.arrivals none 2
        = some [mkAirportRecord cAptLandedEntry cDetails Direction.arrivals] := by
  refine ⟨rfl, by decide, by decide⟩

/-- Claim C9: a null `data` field on any aircraft-history page makes the
collector return `[]` at once, discarding every record accumulated from
earlier pages, whatever the remaining pages hold. -/
theorem null_data_discards_history (aircraftNumber : String) (earliest : Option Nat)
    (page : AircraftPage) (rest : List AircraftPage) (history : List FlightRecord)
    (hnull : page.data = none) :
    collectAircraftPages aircraftNumber earliest (page :: rest) history = [] := by
  simp [collectAircraftPages, hnull]

/-- Witness for C9: a null-data page reached with one record already
accumulated still yields `[]`. -/
theorem null_data_discards_history_witness :
    cNullPage.data = none
    ∧ collectAircraftPages "n12345" none [cNullPage] [cRecord] = [] :=
  ⟨rfl, null_data_discards_history "n12345" none cNullPage [] [cRecord] rfl⟩

/-- Claim C10: the sequence returned by the aircraft collector never
contains two equal records: each candidate is tested against the entire
accumulated history before being appended, so the result is
duplicate-free across pages. -/
theorem aircraft_history_nodup (aircraftNumber : String) (earliest : Option Nat)
    (pages : List AircraftPage) :
    (get_aircraft_history aircraftNumber earliest pages).Nodup :=
  collectAircraftPages_nodup aircraftNumber earliest pages [] List.nodup_nil

/-- Claim C3: when `earliestDate` is set and a processed entry's computed
date precedes it, the collector returns the records accumulated so far
immediately: no later entry of the current page is inspected (the
result ignores `post`) and no subsequent page is fetched (the result
ignores `rest` / the rest of the page oracle, and the page's
more-pages flag); the airport directional fetch behaves the same way. -/
theorem date_boundary_short_circuit :
    (∀ (aircraftNumber : String) (info : AircraftInfo) (earliest : Option Nat)
        (e : AircraftEntry) (post : List AircraftEntry) (history : List FlightRecord),
      e.statusText ≠ "Scheduled" →
      boundaryHit earliest (aircraftEntryDate e) = true →
      processAircraftEntries aircraftNumber info earliest (e :: post) history
        = .inl history)
    ∧ (∀ (aircraftNumber : String) (earliest : Option Nat) (page : AircraftPage)
        (entries : List AircraftEntry) (rest : List AircraftPage)
        (history h : List FlightRecord),
      page.data = some entries →
      processAircraftEntries aircraftNumber page.aircraftInfo earliest entries history
        = .inl h →
      collectAircraftPages aircraftNumber earliest (page :: rest) history = h)
    ∧ (∀ (details : AirportDetails) (direction : Direction) (earliest : Option Nat)
        (e : AirportEntry) (post : List AirportEntry) (history : List FlightRecord),
      (e.statusText = "Scheduled" || strBegins "Estimated" e.statusText) = false →
      boundaryHit earliest e.departureTs = true →
      processAirportEntries details direction earliest (e :: post) history
        = .inl history)
    ∧ (∀ (pages : Int → AirportPage) (direction : Direction) (earliest : Option Nat)
        (fuel : Nat) (history h : List FlightRecord),
      processAirportEntries (pages 1).details direction earliest (pages 1).data history
        = .inl h →
      airportLoop pages direction earliest (fuel + 1) 1 history = some h) := by
  refine ⟨?_, ?_, ?_, ?_⟩
  · intro aircraftNumber info earliest e post history hs hb
    simp [processAircraftEntries, hs, hb]
  · intro aircraftNumber earliest page entries rest history h hd hp
    simp [collectAircraftPages, hd, hp]
  · intro details direction earliest e post history hs hb
    simp [processAirportEntries, hs, hb]
  · intro pages direction earliest fuel history h hp
    simp [airportLoop, hp]

/-- Witness for C3 at concrete inputs: an entry dated 1970 against a
2023 cutoff short-circuits both per-entry loops, the aircraft page loop,
and the airport page loop (whose page 1 reports more pages). -/
theorem date_boundary_short_circuit_witness :
    processAircraftEntries "n12345" cInfo (some 1672531200) [cOldEntry] [] = .inl []
    ∧ collectAircraftPages "n12345" (some 1672531200) [cOldPage] [] = []
    ∧ processAirportEntries cDetails Direction.arrivals (some 1672531200)
        [cAptOldEntry] [] = .inl []
    ∧ airportLoop cAptOldPages Direction.arrivals (some 1672531200) 1 1 [] = some [] :=
  ⟨date_boundary_short_circuit.1 "n12345" cInfo (some 1672531200) cOldEntry [] []
      (by decide) (by decide),
   date_boundary_short_circuit.2.1 "n12345" (some 1672531200) cOldPage [cOldEntry] [] [] []
      rfl
      (date_boundary_short_circuit.1 "n12345" cInfo (some 1672531200) cOldEntry [] []
        (by decide) (by decide)),
   date_boundary_short_circuit.2.2.1 cDetails Direction.arrivals (some 1672531200)
      cAptOldEntry [] [] (by decide) (by decide),
   date_boundary_short_circuit.2.2.2 cAptOldPages Direction.arrivals (some 1672531200)
      0 [] []
      (date_boundary_short_circuit.2.2.1 cDetails Direction.arrivals (some 1672531200)
        cAptOldEntry [] [] (by decide) (by decide))⟩

/-- Claim C4: no record with status `"Scheduled"` is ever produced by
either collector, and no airport-sourced record has a status beginning
with `"Estimated"`. -/
theorem no_scheduled_or_estimated_records :
    (∀ (aircraftNumber : String) (earliest : Option Nat) (pages : List AircraftPage)
        (r : FlightRecord), r ∈ get_aircraft_history aircraftNumber earliest pages →
      r.status ≠ "Scheduled")
    ∧ (∀ (arrivalPages departurePages : Int → AirportPage) (earliest : Option Nat)
        (fuel : Nat) (h : List FlightRecord) (r : FlightRecord),
      get_airport_history arrivalPages departurePages earliest fuel = some h →
      r ∈ h →
      r.status ≠ "Scheduled" ∧ strBegins "Estimated" r.status = false) := by
  constructor
  · intro aircraftNumber earliest pages r hr
    exact collectAircraftPages_inv (fun r => r.status ≠ "Scheduled") aircraftNumber
      earliest (fun info e he => he) pages [] (by simp) r hr
  · intro arr dep earliest fuel h r hres hr
    have hP : ∀ (direction : Direction) (pg : AirportPage) (e : AirportEntry),
        (e.statusText = "Scheduled" || strBegins "Estimated" e.statusText) = false →
        (mkAirportRecord e pg.details direction).status ≠ "Scheduled"
          ∧ strBegins "Estimated" (mkAirportRecord e pg.details direction).status
              = false := by
      intro direction pg e hg
      simp only [Bool.or_eq_false_iff, decide_eq_false_iff_not] at hg
      exact hg
    unfold get_airport_history at hres
    rcases ha : get_airport_history_dir arr Direction.arrivals earliest fuel with _ | a
    · rw [ha] at hres; cases hres
    · rcases hd2 : get_airport_history_dir dep Direction.departures earliest fuel
        with _ | d2
      · rw [ha, hd2] at hres; cases hres
      · rw [ha, hd2] at hres
        cases hres
        rcases List.mem_append.mp hr with h1 | h2
        · exact airportLoop_inv
            (fun r => r.status ≠ "Scheduled" ∧ strBegins "Estimated" r.status = false)
            Direction.arrivals earliest arr (hP Direction.arrivals) fuel 1 [] a
            (by simp) ha r h1
        · exact airportLoop_inv
            (fun r => r.status ≠ "Scheduled" ∧ strBegins "Estimated" r.status = false)
            Direction.departures earliest dep (hP Direction.departures) fuel 1 [] d2
            (by simp) hd2 r h2

/-- Witness for C4 at concrete inputs: a landed record produced by each
collector has a status that is neither `"Scheduled"` nor `"Estimated…"`. -/
theorem no_scheduled_or_estimated_records_witness :
    cRecord.status ≠ "Scheduled"
    ∧ ((mkAirportRecord cAptLandedEntry cDetails Direction.arrivals).status ≠ "Scheduled"
       ∧ strBegins "Estimated"
           (mkAirportRecord cAptLandedEntry cDetails Direction.arrivals).status
         = false) :=
  ⟨no_scheduled_or_estimated_records.1 "n12345" none [cLandedPage] cRecord (by decide),
   no_scheduled_or_estimated_records.2 cAptOnePages cAptOnePages none 1
     [mkAirportRecord cAptLandedEntry cDetails Direction.arrivals,
      mkAirportRecord cAptLandedEntry cDetails Direction.departures]
     (mkAirportRecord cAptLandedEntry cDetails Direction.arrivals)
     (by decide) (by decide)⟩

/-- Claim C6 counterexample: the airport collector stores the provider's
registration string verbatim (`main.py` line 238); with a lower-case
provider registration the produced record's registration differs from
its own uppercasing, refuting the claim for airport-sourced records. -/
theorem airport_registration_not_uppercased :
    get_airport_history_dir cAptLowerPages Direction.arrivals none 1
      = some [mkAirportRecord cAptLowerEntry cDetails Direction.arrivals]
    ∧ (mkAirportRecord cAptLowerEntry cDetails Direction.arrivals).number
        ≠ pyUpper (mkAirportRecord cAptLowerEntry cDetails Direction.arrivals).number := by
  exact ⟨by decide, by decide⟩

/-- Claim C6 (amended): every record produced by the aircraft collector
has an uppercase registration (it equals its own uppercasing, being
`aircraft_number.upper()`), while the airport collector stores the
provider's registration string verbatim, with no uppercasing. -/
theorem aircraft_registration_uppercase :
    (∀ (aircraftNumber : String) (earliest : Option Nat) (pages : List AircraftPage)
        (r : FlightRecord), r ∈ get_aircraft_history aircraftNumber earliest pages →
      r.number = pyUpper r.number)
    ∧ ∀ (e : AirportEntry) (details : AirportDetails) (direction : Direction),
        (mkAirportRecord e details direction).number = e.registration := by
  constructor
  · intro aircraftNumber earliest pages r hr
    refine collectAircraftPages_inv (fun r => r.number = pyUpper r.number)
      aircraftNumber earliest (fun info e _ => ?_) pages [] (by simp) r hr
    show pyUpper aircraftNumber = pyUpper (pyUpper aircraftNumber)
    exact (pyUpper_idem aircraftNumber).symm
  · intro e details direction
    rfl

/-- Witness for the amended C6: the record collected for `"n12345"`
carries registration `"N12345"`, equal to its own uppercasing. -/
theorem aircraft_registration_uppercase_witness :
    cRecord.number = pyUpper cRecord.number :=
  aircraft_registration_uppercase.1 "n12345" none [cLandedPage] cRecord (by decide)

/-- Claim C8: the fetch client returns the first successful response
(after exactly one `randint` sleep per preceding failure), retries up to
the fixed bound `MAX_RETRIES = 5` on non-success, raises once all
retries are exhausted (after five failures the result is the raised
error, with five sleeps), and every sleep it performs is one of the
`randint` draws, hence lies in `RETRY_SLEEP_RANGE = (30, 60)`. -/
theorem get_request_retry_spec :
    (∀ (responses : Nat → Response) (randInt : Nat → Nat) (k : Nat),
      1 ≤ k → k ≤ MAX_RETRIES →
      (∀ j, 1 ≤ j → j < k → (responses j).ok = false) →
      (responses k).ok = true →
      get_request responses randInt MAX_RETRIES
        = ((List.range (k - 1)).map (fun i => randInt (1 + i)), some (responses k)))
    ∧ (∀ (responses : Nat → Response) (randInt : Nat → Nat),
      (∀ j, 1 ≤ j → j ≤ MAX_RETRIES → (responses j).ok = false) →
      get_request responses randInt MAX_RETRIES
        = ((List.range MAX_RETRIES).map (fun i => randInt (1 + i)), none))
    ∧ (∀ (responses : Nat → Response) (randInt : Nat → Nat) (retries s : Nat),
      (∀ j, RETRY_SLEEP_RANGE.1 ≤ randInt j ∧ randInt j ≤ RETRY_SLEEP_RANGE.2) →
      s ∈ (get_request responses randInt retries).1 →
      RETRY_SLEEP_RANGE.1 ≤ s ∧ s ≤ RETRY_SLEEP_RANGE.2) := by
  refine ⟨?_, ?_, ?_⟩
  · intro responses randInt k hk1 hk5 hfail hok
    have hres := getRequestGo_first_success responses randInt (k - 1) 1 MAX_RETRIES
      (by omega)
      (fun j h1 h2 => hfail j h1 (by omega))
      (by rw [show 1 + (k - 1) = k from by omega]; exact hok)
    rw [show 1 + (k - 1) = k from by omega] at hres
    exact hres
  · intro responses randInt hfail
    exact getRequestGo_all_fail responses randInt MAX_RETRIES 1
      (fun j h1 h2 => hfail j h1 (by omega))
  · intro responses randInt retries s hrange hs
    rcases getRequestGo_sleep_mem responses randInt retries 1 s hs with ⟨j, rfl⟩
    exact hrange j

/-- Witness for C8: with failures at attempts 1-2 and success at attempt
3 the client returns attempt 3's response after two sleeps; with five
failures it raises after five sleeps; a draw of 45 lies in the 30-60
range. -/
theorem get_request_retry_spec_witness :
    get_request cResponses cRand MAX_RETRIES
      = ((List.range (3 - 1)).map (fun i => cRand (1 + i)), some (cResponses 3))
    ∧ get_request cFailResponses cRand MAX_RETRIES
        = ((List.range MAX_RETRIES).map (fun i => cRand (1 + i)), none)
    ∧ (RETRY_SLEEP_RANGE.1 ≤ 45 ∧ 45 ≤ RETRY_SLEEP_RANGE.2) :=
  ⟨get_request_retry_spec.1 cResponses cRand 3 (by decide) (by decide)
      (by intro j h1 h2; interval_cases j <;> rfl) (by decide),
   get_request_retry_spec.2.1 cFailResponses cRand (fun j h1 h2 => rfl),
   get_request_retry_spec.2.2 cFailResponses cRand 2 45
      (fun j => ⟨by norm_num [cRand, RETRY_SLEEP_RANGE], by norm_num [cRand, RETRY_SLEEP_RANGE]⟩)
      (by decide)⟩
